import Mathlib

/-!
Verification of the schema-aware query pipeline of the data_assistant_ai
repository, as a shallow embedding.  Python strings are modelled as
lists of characters, Python dictionaries as association lists (insertion
order is iteration order), raised exceptions as values of Except, and the
external language-model, database and eval services as explicit function
parameters.  Every definition is translated from the Python source file
named in its doc comment.
-/

/-- Python strings, modelled as their character sequences. -/
abbrev Str := List Char

/-- Python str.strip with no argument: drop whitespace from both ends.
Python strips a slightly larger whitespace class than Char.isWhitespace;
the difference never matters for the texts involved here. -/
def pyTrim (s : Str) : Str :=
  ((s.dropWhile Char.isWhitespace).reverse.dropWhile Char.isWhitespace).reverse

/-- Index of the first occurrence of sep inside s, if any. -/
def firstOccur (sep : Str) : Str → Option Nat
  | [] => if (sep : Str) = [] then some 0 else none
  | c :: rest =>
    if sep.isPrefixOf (c :: rest) then some 0
    else (firstOccur sep rest).map (· + 1)

/-- Python substring membership test, sep in s. -/
def containsSub (sep s : Str) : Bool := (firstOccur sep s).isSome

/-- Python s.split(sep) for a non-empty separator, with explicit fuel.
Each recursive step consumes at least sep.length chars of the input, so
s.length steps always suffice. -/
def splitFuel (sep : Str) : Nat → Str → List Str
  | 0, s => [s]
  | fuel + 1, s =>
    match firstOccur sep s with
    | none => [s]
    | some i => s.take i :: splitFuel sep fuel (s.drop (i + sep.length))

/-- Python s.split(sep). -/
def pySplit (s sep : Str) : List Str := splitFuel sep s.length s

/-- Lexicographic comparison of Python strings (code-point order),
the order used by Python sorted on str. -/
def strLe : Str → Str → Bool
  | [], _ => true
  | _ :: _, [] => false
  | x :: xs, y :: ys => if x = y then strLe xs ys else decide (x < y)

/-- Stable insertion of x into an already sorted list. -/
def insertSorted (x : Str) : List Str → List Str
  | [] => [x]
  | y :: ys => if strLe x y then x :: y :: ys else y :: insertSorted x ys

/-- Python sorted on lists of strings (stable insertion sort). -/
def sortStrs : List Str → List Str
  | [] => []
  | x :: xs => insertSorted x (sortStrs xs)

/-- Python slice l[-n:]. -/
def lastN {α : Type} (n : Nat) (l : List α) : List α := l.drop (l.length - n)

/-- Attempt to match the date regex of get_relevant_tables
(src/utils/schema_utils.py line 55): four digits, an optional dash or
slash, then two digits.  On success, return the two capture groups
(year, month) and the remaining input after the match.  The regex digit
class is modelled as ASCII digits, which is what the table names and
questions involved contain.  The single-character backtracking of the
optional separator cannot change the outcome because a dash or slash is
never a digit, so the direct translation below is equivalent. -/
def matchDateAt : Str → Option ((Str × Str) × Str)
  | d1 :: d2 :: d3 :: d4 :: rest =>
    if d1.isDigit && d2.isDigit && d3.isDigit && d4.isDigit then
      match
        (match rest with
         | c :: r =>
           if c = '-' || c = '/' then
             (match r with
              | m1 :: m2 :: r2 =>
                if m1.isDigit && m2.isDigit then some (([m1, m2], r2)) else none
              | _ => none)
           else
             (match rest with
              | m1 :: m2 :: r2 =>
                if m1.isDigit && m2.isDigit then some (([m1, m2], r2)) else none
              | _ => none)
         | [] => none) with
      | some (mm, r2) => some (([d1, d2, d3, d4], mm), r2)
      | none => none
    else none
  | _ => none

/-- Python re.findall for the date pattern: scan left to right, restart
after the end of each non-overlapping match.  Fuel decreases every step,
and every step consumes at least one input character, so s.length steps
suffice. -/
def findAllDatesFuel : Nat → Str → List (Str × Str)
  | 0, _ => []
  | fuel + 1, s =>
    match s with
    | [] => []
    | c :: rest =>
      match matchDateAt (c :: rest) with
      | some (ym, r2) => ym :: findAllDatesFuel fuel r2
      | none => findAllDatesFuel fuel rest

/-- The findall of the date regex over the question text. -/
def findAllDates (s : Str) : List (Str × Str) := findAllDatesFuel s.length s

/-- Classification tag of a table-name pattern entry
(src/utils/schema_utils.py, analyze_table_name_pattern). -/
inductive PatternType where
  | temporal
  | static
deriving DecidableEq

/-- One value of the patterns dictionary: a type tag and the member
tables of the group. -/
structure PatternInfo where
  type : PatternType
  tables : List Str
deriving DecidableEq

/-- get_relevant_tables from src/utils/schema_utils.py (lines 40-86).
The patterns dictionary is an association list iterated in insertion
order.  The final Python list(set(relevant_tables)) has unspecified
element order, so it is modelled by List.dedup and callers (and the
theorems below) must only use the result through its toFinset. -/
def get_relevant_tables (patterns : List (Str × PatternInfo)) (question : Str) : List Str :=
  if patterns.isEmpty then []
  else
    let relevant := patterns.foldl (fun acc bp =>
      match bp.2.type with
      | PatternType.temporal =>
        if (findAllDates question).isEmpty then
          if (sortStrs bp.2.tables).isEmpty then acc
          else acc ++ lastN 3 (sortStrs bp.2.tables)
        else
          acc ++ (findAllDates question).foldl (fun a ym =>
            a ++ bp.2.tables.filter (fun t => containsSub (bp.1 ++ ym.1 ++ ym.2) t)) []
      | PatternType.static => acc ++ bp.2.tables) []
    let relevant2 :=
      if relevant.isEmpty ∧ ¬ patterns.isEmpty then
        if (sortStrs (patterns.foldl (fun a bp => a ++ bp.2.tables) [])).isEmpty then relevant
        else relevant ++ lastN 3 (sortStrs (patterns.foldl (fun a bp => a ++ bp.2.tables) []))
      else relevant
    relevant2.dedup

/-- The literal CREATE TABLE separator used by chunk_schema. -/
def ctMarker : Str := ("CREATE TABLE").toList

/-- The clean_chunks value of chunk_schema (src/utils/schema_utils.py
lines 97-98): the pieces of schema.split(CREATE TABLE) whose strip is
non-blank. -/
def cleanChunks (schema : Str) : List Str :=
  (pySplit schema ctMarker).filter (fun c => !(pyTrim c).isEmpty)

/-- The chunk_size computation of chunk_schema (lines 104-106): integer
division of the clean chunk count by max_chunks, raised to 1 when below. -/
def chunkSizeOf (n m : Nat) : Nat := if n / m < 1 then 1 else n / m

/-- The grouping loop of chunk_schema (lines 109-124).  current_size in
the source always equals the length of current_chunk (they are reset and
incremented together), and the result list is produced front to back. -/
def buildChunks (cs : Nat) : List Str → List Str → Nat → List Str
  | [], current, _ => if current ≠ [] then [ctMarker ++ current.flatten] else []
  | t :: ts, current, size =>
    if cs ≤ size ∧ current ≠ [] then
      (ctMarker ++ current.flatten) :: buildChunks cs ts [t] 1
    else
      buildChunks cs ts (current ++ [t]) (size + 1)

/-- chunk_schema from src/utils/schema_utils.py (lines 88-131).  With
max_chunks = 0 and more clean chunks than max_chunks, the Python integer
division raises ZeroDivisionError, the except-handler catches it, and
the fallback [schema] is returned; the third branch mirrors that. -/
def chunk_schema (schema : Str) (max_chunks : Nat) : List Str :=
  if schema.isEmpty then []
  else if (cleanChunks schema).length ≤ max_chunks then [schema]
  else if max_chunks = 0 then [schema]
  else buildChunks (chunkSizeOf (cleanChunks schema).length max_chunks) (cleanChunks schema) [] 0

/-- Python literal values that the DATA payload evaluation can produce:
strings, numbers (modelled as rationals; the claims only involve exact
numeric literals), lists and tuples. -/
inductive PyVal where
  | pyStr (s : Str)
  | pyNum (q : ℚ)
  | pyList (elems : List PyVal)
  | pyTuple (elems : List PyVal)

/-- One visualization row produced by the comprehension in
handle_query_and_response (src/services/data_processing.py lines 70-73):
the Categoria and Cantidad fields. -/
structure VizRow where
  categoria : Str
  cantidad : ℚ
deriving DecidableEq

/-- Python str(cat) restricted to the category values the DATA protocol
produces (string labels); the repr of numbers and containers is not
needed by any claim and is modelled as the empty string. -/
def pyStrOf : PyVal → Str
  | PyVal.pyStr s => s
  | _ => []

/-- Python float(count) on payload values: a numeric literal converts to
itself, anything else is modelled as a conversion failure.  Python would
also accept numeric strings; no claim involves them. -/
def pyFloat : PyVal → Option ℚ
  | PyVal.pyNum q => some q
  | _ => none

/-- Python tuple unpacking cat, count = element for two-element tuples or
lists; none models the unpacking raising. -/
def unpack2 : PyVal → Option (PyVal × PyVal)
  | PyVal.pyTuple [a, b] => some (a, b)
  | PyVal.pyList [a, b] => some (a, b)
  | _ => none

/-- The visualization list comprehension of handle_query_and_response
(lines 70-73); none models the comprehension raising, in which case the
assignment to visualization_data never happens. -/
def vizRows (elems : List PyVal) : Option (List VizRow) :=
  elems.mapM (fun v =>
    (unpack2 v).bind (fun cn => (pyFloat cn.2).map (fun q => VizRow.mk (pyStrOf cn.1) q)))

/-- The literal DATA: marker of the structured-data protocol. -/
def dataMarker : Str := ("DATA:").toList

/-- parts[0] of full_response.split(DATA:): the text before the first
marker. -/
def mainOf (resp : Str) : Str := (pySplit resp dataMarker).getD 0 []

/-- parts[1].strip(): the raw payload between the first marker and the
next marker or the end of the string. -/
def payloadOf (resp : Str) : Str := pyTrim ((pySplit resp dataMarker).getD 1 [])

/-- Lines 59-78 of handle_query_and_response
(src/services/data_processing.py): the best-effort extraction of the
DATA: visualization payload from the synthesized response.  pyEval is
the Python eval service (none models eval raising); the result is the
pair (full_response after processing, visualization_data).  The marker
test of line 60 is expressed as the split yielding at least two parts,
which for a non-empty separator is the same condition; the response is
always a string at this point, so the isinstance test of line 60 holds.
Mirroring the source, the truncated main part is kept whenever the
evaluation and the row comprehension run without raising - even when the
value is empty or not a list - and the original text survives only when
eval itself or the comprehension raises. -/
def extract_visualization (pyEval : Str → Option PyVal) (full_response : Str) :
    Str × Option (List VizRow) :=
  if 2 ≤ (pySplit full_response dataMarker).length then
    if (payloadOf full_response).isEmpty then (full_response, none)
    else
      match pyEval (payloadOf full_response) with
      | none => (full_response, none)
      | some (PyVal.pyList elems) | some (PyVal.pyTuple elems) =>
        if 0 < elems.length then
          match vizRows elems with
          | some rows => (mainOf full_response, some rows)
          | none => (full_response, none)
        else (mainOf full_response, none)
      | some (PyVal.pyStr _) => (mainOf full_response, none)
      | some (PyVal.pyNum _) => (mainOf full_response, none)
  else (full_response, none)

/-- Whether the payload text parses - through the eval service - as a
literal list (or tuple) of (string category, numeric value) pairs, and
the pairs themselves.  This is the parse step the spec describes for the
structured-data block. -/
def evalPairs (pyEval : Str → Option PyVal) (s : Str) : Option (List (Str × ℚ)) :=
  (pyEval s).bind (fun v =>
    match v with
    | PyVal.pyList elems | PyVal.pyTuple elems =>
      elems.mapM (fun e => (unpack2 e).bind (fun cn =>
        match cn.1, pyFloat cn.2 with
        | PyVal.pyStr c, some q => some (c, q)
        | _, _ => none))
    | _ => none)

/-- The no-tables placeholder of get_schema (src/utils/database.py
line 144). -/
def noTablesMsg : Str := ("No tables available for querying.").toList

/-- The error prefix of the get_schema except-handler (line 156). -/
def schemaErrPrefix : Str := ("Error getting schema information: ").toList

/-- The available (non-ignored) tables of get_schema (line 133). -/
def availableTables (all_tables ignored : List Str) : List Str :=
  all_tables.filter (fun t => !(ignored.contains t))

/-- Lines 136-139 of get_schema: a truthy (non-empty) selection is
filtered against the available tables; an empty or missing selection
falls back to ALL available tables. -/
def tablesToUse (all_tables ignored selected_tables : List Str) : List Str :=
  if !selected_tables.isEmpty then
    selected_tables.filter (fun t => (availableTables all_tables ignored).contains t)
  else availableTables all_tables ignored

/-- get_schema from src/utils/database.py (lines 123-156).  The external
pieces are explicit parameters: dbOk models the module-level db object
being initialized, all_tables and ignored the results of get_all_tables
and get_ignored_tables, and tableInfo the langchain db.get_table_info
call (Except.error models it raising).  Every exception is caught and
converted to an error string, mirroring the try+except; the function is
total and never raises. -/
def get_schema (dbOk : Bool) (all_tables ignored selected_tables : List Str)
    (tableInfo : List Str → Except Str Str) : Str :=
  if !dbOk then schemaErrPrefix ++ ("Database connection not initialized").toList
  else if (tablesToUse all_tables ignored selected_tables).isEmpty then noTablesMsg
  else
    match tableInfo (tablesToUse all_tables ignored selected_tables) with
    | Except.ok s => s
    | Except.error e => schemaErrPrefix ++ e

/-- The session flags read by handle_query_and_response line 29. -/
structure Session where
  rag_initialized : Bool
  rag_enabled : Bool

/-- The dictionary returned by process_query_with_rag: the generated
query (rag_response.get with default is modelled by Option.getD) and the
context passages. -/
structure RagResponse where
  query : Option Str
  context_used : List Str

/-- Number of parameters of process_query_with_rag: its definition at
src/services/rag_service.py line 84 takes the single parameter question. -/
def process_query_with_rag_arity : Nat := 1

/-- The TypeError message Python raises for the mismatched call. -/
def typeErrorMsg : Str :=
  ("process_query_with_rag() takes 1 positional argument but 2 were given").toList

/-- Python positional-call semantics: passing a number of positional
arguments different from the callee arity raises TypeError before the
body runs at all. -/
def callPy {α : Type} (arity nargs : Nat) (body : Except Str α) : Except Str α :=
  if nargs = arity then body else Except.error typeErrorMsg

/-- The brain-emoji prefix added to RAG responses (data_processing.py
line 42). -/
def brainPrefix : Str := ("🧠 ").toList

/-- The apology prefix of the fallback error response
(data_processing.py line 107). -/
def errorPrefix : Str := ("Lo siento, hubo un error al procesar tu consulta: ").toList

/-- The try-block body of handle_query_and_response
(src/services/data_processing.py lines 29-56), producing the pair
(query, full_response).  When both RAG session flags are truthy, the RAG
branch calls process_query_with_rag with TWO positional arguments
(line 31); ragBody is what that function would return if it were called
with a matching arity, and sqlChain and fullChain model the two
langchain invocations, with Except.error modelling a raised exception. -/
def pipelineRun (sess : Session) (ragBody : Except Str RagResponse)
    (sqlChain : Except Str Str) (fullChain : Str → Except Str Str) :
    Except Str (Str × Str) :=
  if sess.rag_initialized && sess.rag_enabled then
    (callPy process_query_with_rag_arity 2 ragBody).bind (fun rag =>
      (fullChain (rag.query.getD [])).map (fun fr => (rag.query.getD [], brainPrefix ++ fr)))
  else
    sqlChain.bind (fun query => (fullChain query).map (fun fr => (query, fr)))

/-- The response dictionary built by handle_query_and_response (lines
80-87 on success, 105-112 on error).  The logging, rag_context and
debug-log fields are omitted; question, query, response,
visualization_data and selected_tables are kept. -/
structure ResponseData where
  question : Str
  query : Option Str
  response : Str
  visualization_data : Option (List VizRow)
  selected_tables : List Str

/-- handle_query_and_response from src/services/data_processing.py
(lines 23-122): run the pipeline, extract the visualization payload, and
convert any exception raised inside the try-block into the fallback
error dictionary - query None, visualization_data None, and the apology
message carrying the exception text - so nothing propagates to the
caller. -/
def handle_query_and_response (sess : Session) (pyEval : Str → Option PyVal)
    (ragBody : Except Str RagResponse) (sqlChain : Except Str Str)
    (fullChain : Str → Except Str Str) (question : Str) (selected_tables : List Str) :
    ResponseData :=
  match pipelineRun sess ragBody sqlChain fullChain with
  | Except.error e =>
    ⟨question, none, errorPrefix ++ e, none, selected_tables⟩
  | Except.ok qf =>
    ⟨question, some qf.1, (extract_visualization pyEval qf.2).1,
      (extract_visualization pyEval qf.2).2, selected_tables⟩

/-- The twelve period tables of the sales temporal group used by the
date-selection scenarios. -/
def salesTables : List Str :=
  [("sales202301").toList, ("sales202302").toList, ("sales202303").toList,
   ("sales202304").toList, ("sales202305").toList, ("sales202306").toList,
   ("sales202307").toList, ("sales202308").toList, ("sales202309").toList,
   ("sales202310").toList, ("sales202311").toList, ("sales202312").toList]

/-- The patterns dictionary with the single temporal group sales. -/
def salesPatterns : List (Str × PatternInfo) :=
  [(("sales").toList, ⟨PatternType.temporal, salesTables⟩)]

/-- A three-table schema text. -/
def schemaABC : Str :=
  ("CREATE TABLE a (x INT) CREATE TABLE b (y INT) CREATE TABLE c (z INT)").toList

/-- A two-table schema text. -/
def schemaAB : Str := ("CREATE TABLE a (x INT) CREATE TABLE b (y INT)").toList

/-- A one-table schema text. -/
def schemaA : Str := ("CREATE TABLE a (x INT)").toList

/-- Claim C6: with a temporal group sales202301..sales202312, the
question containing the date token 2023-06 selects exactly the set
containing sales202306. -/
theorem date_token_selects_exact_month :
    (get_relevant_tables salesPatterns (("revenue in 2023-06").toList)).toFinset
      = {("sales202306").toList} := by decide

/-- Claim C7: with the same temporal group and a question containing no
year+month token, the selection is exactly the three lexicographically
largest period tables. -/
theorem no_date_token_selects_last_three :
    (get_relevant_tables salesPatterns (("how is revenue trending").toList)).toFinset
      = {("sales202310").toList, ("sales202311").toList, ("sales202312").toList} := by decide

/-- Claim C3 counterexample: a three-table schema with maxChunks = 2 is
split into three chunks.  The remainder becomes an extra final chunk
instead of being folded into the last group, so the chunk count exceeds
maxChunks even though maxChunks = 2 satisfies maxChunks at least 1. -/
theorem chunk_count_exceeds_max_counterexample :
    (chunk_schema schemaABC 2).length = 3 ∧ ¬ (chunk_schema schemaABC 2).length ≤ 2 := by
  decide

/-- Helper: the number of chunks produced by the grouping loop, started
inside a group that already holds size elements with size between 1 and
the group capacity, is the number of remaining elements plus size,
divided by the capacity rounding up. -/
theorem buildChunks_length (cs : Nat) (hcs : 1 ≤ cs) (ts : List Str) :
    ∀ (current : List Str) (size : Nat), size = current.length → 1 ≤ size → size ≤ cs →
      (buildChunks cs ts current size).length = (ts.length + size - 1) / cs + 1 := by
  induction ts with
  | nil =>
    intro current size hsz h1 h2
    cases current with
    | nil => simp at hsz; omega
    | cons a rest =>
      simp only [buildChunks, ne_eq, reduceCtorEq, not_false_eq_true, if_true, List.length_cons,
        List.length_nil]
      rw [Nat.div_eq_of_lt (by omega)]
  | cons t ts ih =>
    intro current size hsz h1 h2
    have hcur : current ≠ [] := by
      cases current with
      | nil => simp at hsz; omega
      | cons a rest => simp
    by_cases hf : cs ≤ size
    · have hsz2 : size = cs := le_antisymm h2 hf
      simp only [buildChunks, hf, hcur, and_self, if_true, ne_eq, not_false_eq_true,
        List.length_cons]
      rw [ih [t] 1 rfl le_rfl hcs]
      subst hsz2
      have e1 : ts.length + 1 - 1 = ts.length := by omega
      have e2 : ts.length + 1 + size - 1 = ts.length + size := by omega
      rw [e1, e2, Nat.add_div_right _ (by omega)]
    · simp only [buildChunks, hf, false_and, if_false, List.length_cons]
      rw [ih (current ++ [t]) (size + 1) (by simp [hsz]) (by omega) (by omega)]
      have harg : ts.length + 1 + size - 1 = ts.length + (size + 1) - 1 := by omega
      rw [harg]

/-- Claim C3 amended: when the number of non-blank table definitions N
exceeds maxChunks (with maxChunks at least 1), chunk_schema groups
consecutive definitions into groups of exactly N / maxChunks (integer
division) and emits any remainder as an additional final chunk, so the
chunk count is (N - 1) / (N / maxChunks) + 1, the round-up of N divided
by the group size.  That count can exceed maxChunks (3 definitions with
maxChunks = 2 give 3 chunks), though not always: with maxChunks = 1 the
group size is N and the formula gives a single chunk.  When N is at
most maxChunks, chunk_schema returns one chunk outright. -/
theorem chunk_count_formula (schema : Str) (m : Nat) (h1 : 1 ≤ m)
    (h2 : m < (cleanChunks schema).length) :
    (chunk_schema schema m).length
      = ((cleanChunks schema).length - 1) / ((cleanChunks schema).length / m) + 1 := by
  have hne : schema ≠ [] := by
    intro h
    rw [h] at h2
    have hc : cleanChunks ([] : Str) = [] := rfl
    rw [hc] at h2
    simp at h2
  have hie : schema.isEmpty = false := by
    cases schema with
    | nil => exact absurd rfl hne
    | cons a l => rfl
  have hdiv : 1 ≤ (cleanChunks schema).length / m :=
    (Nat.one_le_div_iff (by omega)).mpr (le_of_lt h2)
  have hcsz : chunkSizeOf (cleanChunks schema).length m = (cleanChunks schema).length / m := by
    unfold chunkSizeOf
    rw [if_neg (by omega)]
  obtain ⟨c, rest, hcl⟩ : ∃ c rest, cleanChunks schema = c :: rest := by
    cases hx : cleanChunks schema with
    | nil => rw [hx] at h2; simp at h2
    | cons a l => exact ⟨a, l, rfl⟩
  unfold chunk_schema
  rw [hie, if_neg (by simp), if_neg (by omega), if_neg (by omega), hcsz, hcl]
  simp only [buildChunks, ne_eq, not_true_eq_false, and_false, if_false, List.nil_append,
    Nat.zero_add]
  rw [hcl] at hdiv
  rw [buildChunks_length ((c :: rest).length / m) hdiv rest [c] 1 rfl le_rfl hdiv]
  simp

/-- Claim C3 witness: the three-table schema with maxChunks = 2
instantiates the amended count formula, giving 3 chunks. -/
theorem chunk_count_formula_witness :
    1 ≤ 2 ∧ 2 < (cleanChunks schemaABC).length ∧
      (chunk_schema schemaABC 2).length
        = ((cleanChunks schemaABC).length - 1) / ((cleanChunks schemaABC).length / 2) + 1 :=
  ⟨by decide, by decide, chunk_count_formula schemaABC 2 (by decide) (by decide)⟩

/-- Claim C4 counterexample: the two-table schema with maxChunks = 1
groups both definitions into one chunk, and the CREATE TABLE separator
between them is lost, so concatenating the chunks does not reproduce the
original text. -/
theorem chunk_join_counterexample :
    ¬ (chunk_schema schemaAB 1).flatten = schemaAB := by decide

/-- Claim C4 amended: concatenating the chunks reproduces the original
schema text whenever the number of non-blank table definitions is at
most maxChunks (the text is then returned as a single chunk); when the
grouping places two or more definitions in one chunk, the interior
CREATE TABLE separators are dropped, so reconstruction can fail. -/
theorem chunk_join_of_le (schema : Str) (m : Nat)
    (h : (cleanChunks schema).length ≤ m) :
    (chunk_schema schema m).flatten = schema := by
  by_cases hs : schema.isEmpty = true
  · have hnil : schema = [] := by
      cases schema with
      | nil => rfl
      | cons a l => simp at hs
    subst hnil
    rfl
  · unfold chunk_schema
    rw [if_neg hs, if_pos h]
    simp

/-- Claim C4 witness: the one-table schema with maxChunks = 3 satisfies
the hypothesis and reconstructs exactly. -/
theorem chunk_join_of_le_witness :
    (cleanChunks schemaA).length ≤ 3 ∧ (chunk_schema schemaA 3).flatten = schemaA :=
  ⟨by decide, chunk_join_of_le schemaA 3 (by decide)⟩

/-- Claim C8 counterexample: the empty schema text has zero table
definitions (so N is at most maxChunks = 3), yet chunk_schema returns
zero chunks, not one chunk equal to the input. -/
theorem chunk_empty_schema_counterexample :
    chunk_schema [] 3 = [] ∧ (cleanChunks ([] : Str)).length = 0 ∧
      ¬ (chunk_schema [] 3).length = 1 := by decide

/-- Claim C8 amended: for every NON-EMPTY schema text whose number of
non-blank table definitions is at most maxChunks, chunk_schema returns
exactly one chunk, and that chunk is the input text; the empty text
instead yields an empty chunk list. -/
theorem chunk_single_of_le (schema : Str) (m : Nat) (hne : schema ≠ [])
    (h : (cleanChunks schema).length ≤ m) :
    chunk_schema schema m = [schema] := by
  have hs : schema.isEmpty = false := by
    cases schema with
    | nil => exact absurd rfl hne
    | cons a l => rfl
  unfold chunk_schema
  rw [hs, if_neg (by simp), if_pos h]

/-- Claim C8 witness: the one-table schema with maxChunks = 3 is
returned whole as a single chunk. -/
theorem chunk_single_of_le_witness :
    schemaA ≠ [] ∧ (cleanChunks schemaA).length ≤ 3 ∧ chunk_schema schemaA 3 = [schemaA] :=
  ⟨by decide, by decide, chunk_single_of_le schemaA 3 (by decide) (by decide)⟩

/-- A response carrying a single-pair DATA payload. -/
def respSingle : Str := ("Answer DATA:[(\"A\", 10)]").toList

/-- The payload text of respSingle. -/
def payloadSingle : Str := ("[(\"A\", 10)]").toList

/-- An eval service that evaluates the single-pair payload to the
corresponding one-element literal list, as Python eval does. -/
def pyEvalSingle : Str → Option PyVal := fun s =>
  if s = payloadSingle then
    some (PyVal.pyList [PyVal.pyTuple [PyVal.pyStr (("A").toList), PyVal.pyNum 10]])
  else none

/-- Claim C1 counterexample: the payload of respSingle evaluates to a
list with exactly one (category, number) pair, yet the extraction yields
visualization_data PRESENT (the single row), not absent - the code only
requires a non-empty list (len greater than 0), not two categories. -/
theorem single_pair_counterexample :
    payloadOf respSingle = payloadSingle ∧
    pyEvalSingle (payloadOf respSingle)
      = some (PyVal.pyList [PyVal.pyTuple [PyVal.pyStr (("A").toList), PyVal.pyNum 10]]) ∧
    (extract_visualization pyEvalSingle respSingle).2 = some [⟨("A").toList, 10⟩] :=
  ⟨by decide, rfl, rfl⟩

/-- Claim C1 amended: a structured-data block whose non-blank payload
evaluates to a literal list with exactly one (category, number) pair
yields visualization_data present, containing exactly that single row;
the visualization threshold of the code is a non-empty list, not two or
more categories. -/
theorem single_pair_viz_present (pyEval : Str → Option PyVal) (resp : Str) (c : Str) (q : ℚ)
    (hm : 2 ≤ (pySplit resp dataMarker).length)
    (hp : (payloadOf resp).isEmpty = false)
    (he : pyEval (payloadOf resp)
      = some (PyVal.pyList [PyVal.pyTuple [PyVal.pyStr c, PyVal.pyNum q]])) :
    (extract_visualization pyEval resp).2 = some [⟨c, q⟩] := by
  unfold extract_visualization
  rw [if_pos hm, hp, if_neg (by simp), he]
  rfl

/-- Claim C1 witness: the amended theorem instantiated at respSingle. -/
theorem single_pair_viz_present_witness :
    (extract_visualization pyEvalSingle respSingle).2 = some [⟨("A").toList, 10⟩] :=
  single_pair_viz_present pyEvalSingle respSingle (("A").toList) 10 (by decide) (by decide) rfl

/-- A response whose DATA payload evaluates to a bare number. -/
def respNum : Str := ("Answer DATA:5").toList

/-- An eval service evaluating the payload 5 to the number 5, as Python
eval does. -/
def pyEvalNum : Str → Option PyVal := fun s =>
  if s = ("5").toList then some (PyVal.pyNum 5) else none

/-- Claim C5 counterexample: the payload 5 does not parse as a literal
list of (category, number) pairs (evalPairs is none), and the marker is
present, yet the returned answer text is TRUNCATED at the marker rather
than left unchanged - the evaluation succeeded with a non-list value, so
the source still replaces full_response by the part before the marker.
Visualization stays absent and nothing is raised, but the unchanged-text
part of the claim fails. -/
theorem malformed_payload_counterexample :
    evalPairs pyEvalNum (payloadOf respNum) = none ∧
    2 ≤ (pySplit respNum dataMarker).length ∧
    ¬ (extract_visualization pyEvalNum respNum).1 = respNum ∧
    (extract_visualization pyEvalNum respNum).2 = none := by
  refine ⟨rfl, by decide, by decide, rfl⟩

/-- Claim C5 amended: when the DATA payload fails to EVALUATE as a
Python literal (the eval step raises, modelled by the oracle returning
none), the extraction returns the original full text unchanged with
visualization_data absent; the extraction is a total function, so no
exception propagates.  When the payload evaluates to a value that is not
a non-empty list of pairs, visualization_data is still absent but the
text is truncated at the marker, as the counterexample shows. -/
theorem eval_failure_text_unchanged (pyEval : Str → Option PyVal) (resp : Str)
    (he : pyEval (payloadOf resp) = none) :
    extract_visualization pyEval resp = (resp, none) := by
  unfold extract_visualization
  by_cases hm : 2 ≤ (pySplit resp dataMarker).length
  · rw [if_pos hm]
    by_cases hp : (payloadOf resp).isEmpty = true
    · rw [if_pos hp]
    · rw [if_neg hp, he]
  · rw [if_neg hm]

/-- Claim C5 witness: the spec example payload [not valid] makes eval
raise; the text survives unchanged and visualization is absent. -/
theorem eval_failure_text_unchanged_witness :
    extract_visualization (fun _ => none) (("Some answer DATA:[not valid]").toList)
      = ((("Some answer DATA:[not valid]").toList), none) :=
  eval_failure_text_unchanged (fun _ => none) (("Some answer DATA:[not valid]").toList) rfl

/-- The single table of the C2 scenario. -/
def ordersTable : Str := ("orders").toList

/-- The schema text the introspection service returns for orders. -/
def ordersSchemaText : Str := ("CREATE TABLE orders (id INT)").toList

/-- Claim C2 counterexample: with the table orders present in the store,
nothing ignored and an EMPTY selection, get_schema does NOT return the
no-tables placeholder: the empty Python list is falsy, so the function
falls back to all available tables and returns their schema text. -/
theorem empty_selection_counterexample :
    get_schema true [ordersTable] [] [] (fun _ => Except.ok ordersSchemaText)
      = ordersSchemaText ∧
    ¬ get_schema true [ordersTable] [] [] (fun _ => Except.ok ordersSchemaText)
      = noTablesMsg := by
  refine ⟨rfl, by decide⟩

/-- Claim C2 amended: with an empty selection, get_schema returns the
no-tables placeholder exactly when the store has no available
(non-ignored) tables; with available tables it instead describes all of
them.  In either case it returns text and never raises (the model is a
total function, mirroring the try+except of the source). -/
theorem empty_selection_placeholder (all_tables ignored : List Str)
    (tableInfo : List Str → Except Str Str)
    (h : availableTables all_tables ignored = []) :
    get_schema true all_tables ignored [] tableInfo = noTablesMsg := by
  unfold get_schema tablesToUse
  rw [h]
  rfl

/-- Claim C2 witness: every table ignored, empty selection, placeholder
returned even though the introspection service would raise. -/
theorem empty_selection_placeholder_witness :
    availableTables [ordersTable] [ordersTable] = [] ∧
      get_schema true [ordersTable] [ordersTable] [] (fun _ => Except.error []) = noTablesMsg :=
  ⟨by decide,
    empty_selection_placeholder [ordersTable] [ordersTable] (fun _ => Except.error []) (by decide)⟩

/-- Claim C9: whatever exception is raised inside the pipeline - in
either branch, at the RAG call, the SQL chain or the response chain -
handle_query_and_response returns the well-formed fallback dictionary:
query None, visualization_data None, and a user-displayable message (the
apology prefix followed by the exception text); nothing propagates past
the caller-facing function. -/
theorem pipeline_error_gives_error_response (sess : Session) (pyEval : Str → Option PyVal)
    (ragBody : Except Str RagResponse) (sqlChain : Except Str Str)
    (fullChain : Str → Except Str Str) (question : Str) (selected_tables : List Str)
    (e : Str) (h : pipelineRun sess ragBody sqlChain fullChain = Except.error e) :
    handle_query_and_response sess pyEval ragBody sqlChain fullChain question selected_tables
      = ⟨question, none, errorPrefix ++ e, none, selected_tables⟩ := by
  unfold handle_query_and_response
  rw [h]

/-- Claim C9 witness: a raised exception in the SQL chain (RAG branch
off) produces exactly the fallback error dictionary. -/
theorem pipeline_error_gives_error_response_witness :
    handle_query_and_response ⟨false, false⟩ (fun _ => none) (Except.error [])
        (Except.error (("boom").toList)) (fun _ => Except.ok []) (("q").toList) [ordersTable]
      = ⟨("q").toList, none, errorPrefix ++ ("boom").toList, none, [ordersTable]⟩ :=
  pipeline_error_gives_error_response ⟨false, false⟩ (fun _ => none) (Except.error [])
    (Except.error (("boom").toList)) (fun _ => Except.ok []) (("q").toList) [ordersTable]
    (("boom").toList) rfl

/-- Claim C10: when the session flags rag_initialized and rag_enabled
are both set, handle_query_and_response calls process_query_with_rag
with two positional arguments (src/services/data_processing.py line 31)
although that function takes only the parameter question
(src/services/rag_service.py line 84), so the call raises TypeError, the
except-handler runs, and the fallback error response - query None,
visualization_data None - is returned no matter what the RAG body or the
chains would produce: the RAG-enhanced answer path is unreachable. -/
theorem rag_branch_always_errors (sess : Session) (pyEval : Str → Option PyVal)
    (ragBody : Except Str RagResponse) (sqlChain : Except Str Str)
    (fullChain : Str → Except Str Str) (question : Str) (selected_tables : List Str)
    (h1 : sess.rag_initialized = true) (h2 : sess.rag_enabled = true) :
    handle_query_and_response sess pyEval ragBody sqlChain fullChain question selected_tables
      = ⟨question, none, errorPrefix ++ typeErrorMsg, none, selected_tables⟩ := by
  unfold handle_query_and_response pipelineRun
  rw [h1, h2]
  rfl

/-- Claim C10 witness: with both flags set and every external service
succeeding, the result is still the fallback error dictionary carrying
the TypeError message. -/
theorem rag_branch_always_errors_witness :
    handle_query_and_response ⟨true, true⟩ (fun _ => none)
        (Except.ok ⟨some (("SELECT 1").toList), []⟩) (Except.ok (("SELECT 1").toList))
        (fun _ => Except.ok (("fine").toList)) (("q").toList) [ordersTable]
      = ⟨("q").toList, none, errorPrefix ++ typeErrorMsg, none, [ordersTable]⟩ :=
  rag_branch_always_errors ⟨true, true⟩ (fun _ => none)
    (Except.ok ⟨some (("SELECT 1").toList), []⟩) (Except.ok (("SELECT 1").toList))
    (fun _ => Except.ok (("fine").toList)) (("q").toList) [ordersTable] rfl rfl
